import Mathlib

/-!
# Haven relay — verification of the hub, session and persistence contracts

Shallow embedding of the Haven relay core (Go) in Lean 4:

* Go maps (`map[string]T`) are modelled as association lists with
  overwrite-insert, delete and lookup (`GoMap` below).
* The hub's state under its mutex (`clients`, `usernames`, `userIDs`,
  `rooms`) together with the PostgreSQL tables it drives (`users`,
  `room_members`, `room_messages`, `rooms`) form one state record
  `HubState`; each hub method that runs under the lock is a pure
  transition on it.  Atomicity of a locked section is captured by the
  section being a single Lean function.
* A session endpoint (`client.Client`) keeps its bounded outbound Go
  channel as a list of queued envelopes plus a `closed` flag.  Closing a
  closed Go channel is a runtime panic; panicking operations return
  `Option`/`none`.
* SHA-256 (`auth.HashValue`) is abstracted as a function parameter
  `hash : String → String`; server-generated UUIDs, recovery phrases and
  timestamps are oracle parameters of the transitions that consume them.
-/

namespace Haven

/-! ## Go maps as association lists -/

/-- A Go `map[string]α`: an association list with at most one binding per
key (maintained by construction through `GoMap.insert`/`GoMap.erase`). -/
abbrev GoMap (α : Type) := List (String × α)

namespace GoMap

/-- Go map read `m[k]` (with `ok` as `Option`). -/
def lookup {α : Type} (k : String) : GoMap α → Option α
  | [] => none
  | (k', v) :: rest => if k' = k then some v else lookup k rest

/-- Go `delete(m, k)`. -/
def erase {α : Type} (m : GoMap α) (k : String) : GoMap α :=
  m.filter fun kv => kv.1 ≠ k

/-- Go map write `m[k] = v` (overwrites any previous binding). -/
def insert {α : Type} (m : GoMap α) (k : String) (v : α) : GoMap α :=
  (k, v) :: erase m k

/-- In-place update of the value stored at `k`, when present.  Models a Go
mutation through a pointer that is also reachable from the map. -/
def adjust {α : Type} (m : GoMap α) (k : String) (f : α → α) : GoMap α :=
  m.map fun kv => if kv.1 = k then (kv.1, f kv.2) else kv

@[simp] theorem lookup_nil {α : Type} (k : String) :
    lookup k ([] : GoMap α) = none := rfl

theorem lookup_cons {α : Type} (k k' : String) (v : α) (m : GoMap α) :
    lookup k ((k', v) :: m) = if k' = k then some v else lookup k m := rfl

@[simp] theorem lookup_erase_self {α : Type} (m : GoMap α) (k : String) :
    lookup k (erase m k) = none := by
  induction m with
  | nil => rfl
  | cons kv rest ih =>
    obtain ⟨a, b⟩ := kv
    by_cases hk : a = k
    · simpa [erase, hk] using ih
    · simpa [erase, lookup, hk] using ih

theorem lookup_erase_ne {α : Type} (m : GoMap α) (k k' : String) (h : k' ≠ k) :
    lookup k' (erase m k) = lookup k' m := by
  induction m with
  | nil => rfl
  | cons kv rest ih =>
    obtain ⟨a, b⟩ := kv
    by_cases hk : a = k
    · subst hk
      have ha : a ≠ k' := fun hh => h hh.symm
      simpa [erase, lookup, ha] using ih
    · by_cases hk' : a = k'
      · subst hk'
        simp [erase, lookup, hk]
      · simpa [erase, lookup, hk, hk'] using ih

@[simp] theorem lookup_insert_self {α : Type} (m : GoMap α) (k : String) (v : α) :
    lookup k (insert m k v) = some v := by
  simp [insert, lookup]

theorem lookup_insert_ne {α : Type} (m : GoMap α) (k k' : String) (v : α)
    (h : k' ≠ k) : lookup k' (insert m k v) = lookup k' m := by
  rw [insert, lookup_cons, if_neg (fun hh => h hh.symm)]
  exact lookup_erase_ne m k k' h

theorem lookup_adjust {α : Type} (m : GoMap α) (k k' : String) (f : α → α) :
    lookup k' (adjust m k f) =
      if k = k' then (lookup k' m).map f else lookup k' m := by
  induction m with
  | nil => simp [adjust]
  | cons kv rest ih =>
    obtain ⟨a, b⟩ := kv
    have hstep : adjust ((a, b) :: rest) k f
        = (if a = k then (a, f b) else (a, b)) :: adjust rest k f := by
      simp [adjust]
    rw [hstep]
    by_cases hk : a = k
    · rw [if_pos hk]
      subst hk
      by_cases hkk : a = k'
      · subst hkk
        rw [lookup_cons, if_pos rfl, if_pos rfl, lookup_cons, if_pos rfl]
        rfl
      · rw [lookup_cons, if_neg hkk, if_neg hkk, lookup_cons, if_neg hkk, ih,
          if_neg hkk]
    · rw [if_neg hk]
      by_cases hk' : a = k'
      · subst hk'
        have hkk : ¬ k = a := fun hh => hk hh.symm
        rw [lookup_cons, if_pos rfl, if_neg hkk, lookup_cons, if_pos rfl]
      · rw [lookup_cons, if_neg hk', lookup_cons, if_neg hk', ih]

theorem lookup_adjust_self {α : Type} (m : GoMap α) (k : String) (f : α → α) :
    lookup k (adjust m k f) = (lookup k m).map f := by
  simp [lookup_adjust]

theorem lookup_adjust_ne {α : Type} (m : GoMap α) (k k' : String) (f : α → α)
    (h : k ≠ k') : lookup k' (adjust m k f) = lookup k' m := by
  simp [lookup_adjust, h]

theorem lookup_mem {α : Type} {m : GoMap α} {k : String} {v : α}
    (h : lookup k m = some v) : (k, v) ∈ m := by
  induction m with
  | nil => simp [lookup] at h
  | cons kv rest ih =>
    obtain ⟨a, b⟩ := kv
    by_cases hk : a = k
    · simp [lookup, hk] at h
      subst hk
      subst h
      exact List.mem_cons_self _ _
    · simp [lookup, hk] at h
      exact List.mem_cons_of_mem _ (ih h)

end GoMap

/-! ## Protocol envelopes produced by the modelled hub operations

`internal/protocol` enumerates many message types; only the payloads that
the hub operations under verification emit are needed here. -/

/-- `protocol.RoomInfo` — a room's public info. -/
structure RoomInfo where
  roomID : String
  name : String
  creator : String
  creatorID : String
  memberCount : Nat
  isPublic : Bool
  deriving DecidableEq, Repr

/-- Outbound server→client envelopes emitted by the modelled hub methods
(`kicked`, `user_joined`, `user_left`, `direct_message`, `room_created`). -/
inductive Msg where
  | kicked (reason : String)
  | userJoined (userID username : String)
  | userLeft (userID username : String)
  | directMessage (messageID fromUsername fromID content : String)
      (timestamp : Nat)
  | roomCreated (info : RoomInfo)
  deriving DecidableEq, Repr

/-- Client-facing error codes (`internal/protocol`, part_010 lines 215–225). -/
inductive ErrCode where
  | usernameInUse
  | invalidUsername
  | notRegistered
  | roomNotFound
  | notInRoom
  | alreadyInRoom
  | userNotFound
  | invalidMessage
  | invalidRoomName
  | recoveryRequired
  | invalidRecovery
  deriving DecidableEq, Repr

/-- The exact wire strings of the error codes. -/
def ErrCode.code : ErrCode → String
  | .usernameInUse => "USERNAME_IN_USE"
  | .invalidUsername => "INVALID_USERNAME"
  | .notRegistered => "NOT_REGISTERED"
  | .roomNotFound => "ROOM_NOT_FOUND"
  | .notInRoom => "NOT_IN_ROOM"
  | .alreadyInRoom => "ALREADY_IN_ROOM"
  | .userNotFound => "USER_NOT_FOUND"
  | .invalidMessage => "INVALID_MESSAGE"
  | .invalidRoomName => "INVALID_ROOM_NAME"
  | .recoveryRequired => "RECOVERY_REQUIRED"
  | .invalidRecovery => "INVALID_RECOVERY"

/-! ## Session endpoint (`internal/client`, src/unnamed/part_003) -/

/-- Capacity of the outbound channel `Send` (`sendBufferSize = 256`). -/
def sendBufferSize : Nat := 256

/-- `client.Client`: one live session.  `sendq`/`closed` model the bounded
Go channel `Send` (its queued contents and whether `close(c.Send)` ran);
`rooms` models the client's joined-room set. -/
structure Client where
  id : String
  userID : String := ""
  username : String := ""
  rooms : List String := []
  sendq : List Msg := []
  closed : Bool := false
  deriving DecidableEq, Repr

namespace Client

/-- `Client.SendMessage`: non-blocking `select` send on the outbound
channel — the envelope is dropped when the buffer is full.  (No modelled
hub path sends to an endpoint after closing it, so the Go runtime's panic
on a closed channel cannot fire here and a closed queue keeps its
contents.) -/
def sendMessage (c : Client) (m : Msg) : Client :=
  if c.closed then c
  else if c.sendq.length < sendBufferSize then
    { c with sendq := c.sendq ++ [m] }
  else c

/-- `Client.Close` (src/unnamed/part_003 lines 206–209): the body is the
single statement `close(c.Send)`.  Closing an already-closed Go channel
panics at runtime; `none` models that panic. -/
def close (c : Client) : Option Client :=
  if c.closed then none else some { c with closed := true }

/-- `Client.JoinRoom`: insert a room id into the client's room set. -/
def joinRoomSet (rooms : List String) (roomID : String) : List String :=
  if roomID ∈ rooms then rooms else rooms ++ [roomID]

@[simp] theorem sendMessage_closed (c : Client) (m : Msg) :
    (c.sendMessage m).closed = c.closed := by
  unfold sendMessage
  split
  · rfl
  · split <;> rfl

@[simp] theorem sendMessage_id (c : Client) (m : Msg) :
    (c.sendMessage m).id = c.id := by
  unfold sendMessage
  split
  · rfl
  · split <;> rfl

@[simp] theorem sendMessage_username (c : Client) (m : Msg) :
    (c.sendMessage m).username = c.username := by
  unfold sendMessage
  split
  · rfl
  · split <;> rfl

@[simp] theorem sendMessage_userID (c : Client) (m : Msg) :
    (c.sendMessage m).userID = c.userID := by
  unfold sendMessage
  split
  · rfl
  · split <;> rfl

theorem sendMessage_enqueue (c : Client) (m : Msg) (hopen : c.closed = false)
    (hroom : c.sendq.length < sendBufferSize) :
    c.sendMessage m = { c with sendq := c.sendq ++ [m] } := by
  unfold sendMessage
  rw [hopen]
  simp [hroom]

end Client

/-- The user-id fallback that every DB-mode hub method repeats:
`id := c.UserID; if id == "" { id = c.ID }`. -/
def effectiveID (c : Client) : String :=
  if c.userID = "" then c.id else c.userID

/-! ## Rooms (`internal/room`) -/

/-- `room.Member` — an in-memory room member. -/
structure RoomMember where
  userID : String
  username : String
  joinedAt : Nat
  deriving DecidableEq, Repr

/-- `room.Room`: the in-memory room with its member map (userID → member). -/
structure Room where
  id : String
  name : String
  creatorID : String
  creator : String
  isPublic : Bool
  createdAt : Nat
  members : GoMap RoomMember
  deriving DecidableEq, Repr

namespace Room

/-- `room.New`: the creator auto-joins the fresh room. -/
def new (id name creatorID creatorUsername : String) (isPublic : Bool)
    (now : Nat) : Room :=
  { id, name, creatorID, creator := creatorUsername, isPublic,
    createdAt := now,
    members := [(creatorID, ⟨creatorID, creatorUsername, now⟩)] }

/-- `Room.HasMember`. -/
def hasMember (r : Room) (userID : String) : Bool :=
  (GoMap.lookup userID r.members).isSome

/-- `Room.Info`. -/
def info (r : Room) : RoomInfo :=
  { roomID := r.id, name := r.name, creator := r.creator,
    creatorID := r.creatorID, memberCount := r.members.length,
    isPublic := r.isPublic }

end Room

/-! ## Validation (`usernameRegex`, `roomNameRegex`) -/

/-- A character allowed by `^[a-zA-Z0-9_-]{3,20}$`. -/
def usernameChar (ch : Char) : Bool :=
  ('a' ≤ ch && ch ≤ 'z') || ('A' ≤ ch && ch ≤ 'Z') ||
    ('0' ≤ ch && ch ≤ '9') || ch == '_' || ch == '-'

/-- `usernameRegex.MatchString`: `^[a-zA-Z0-9_-]{3,20}$` over the
string's characters. -/
def usernameRegex (s : String) : Bool :=
  3 ≤ s.length && s.length ≤ 20 && s.data.all usernameChar

/-- `roomNameRegex.MatchString`: `^.{1,50}$`.  In Go's regexp syntax `.`
matches any character except newline, so a conforming name is 1–50
characters long and newline-free. -/
def roomNameRegex (s : String) : Bool :=
  1 ≤ s.length && s.length ≤ 50 && s.data.all (fun ch => ch != '\n')

/-! ## Persistent stores (`internal/storage/postgres`)

Each table is a list of rows; each store method is a pure function on it,
modelling the happy path of the SQL (an I/O failure of the pool is not a
behaviour of the data, and the claims do not concern it).  `created_at` /
`joined_at` timestamps are `Nat` milliseconds. -/

/-- A row of `users` (timestamps other than identity are not needed by
any claim; `last_seen_at` updates touch no modelled column). -/
structure UserRow where
  id : String
  username : String
  fingerprintHash : String
  recoveryCodeHash : String
  deriving DecidableEq, Repr

/-- `UserStore.GetByUsername`: `SELECT … FROM users WHERE username = $1`
(`username` is UNIQUE, so the first match is the row). -/
def usersGetByUsername (tbl : List UserRow) (username : String) :
    Option UserRow :=
  tbl.find? fun r => r.username == username

/-- `UserStore.UpdateFingerprint`:
`UPDATE users SET fingerprint_hash = $1, last_seen_at = NOW() WHERE id = $2`. -/
def usersUpdateFingerprint (tbl : List UserRow) (id fingerprintHash : String) :
    List UserRow :=
  tbl.map fun r =>
    if r.id = id then { r with fingerprintHash := fingerprintHash } else r

/-- A row of `room_members` (`PRIMARY KEY (room_id, user_id)`,
`joined_at DEFAULT NOW()`). -/
structure MemberRow where
  roomID : String
  userID : String
  username : String
  joinedAt : Nat
  deriving DecidableEq, Repr

/-- `MemberStore.Add`: `INSERT … ON CONFLICT (room_id, user_id) DO UPDATE
SET username = EXCLUDED.username` — on conflict only `username` changes
and `joined_at` keeps its original default. -/
def membersAdd (tbl : List MemberRow) (roomID userID username : String)
    (now : Nat) : List MemberRow :=
  if tbl.any fun r => r.roomID == roomID && r.userID == userID then
    tbl.map fun r =>
      if r.roomID == roomID && r.userID == userID then
        { r with username := username }
      else r
  else
    tbl ++ [⟨roomID, userID, username, now⟩]

/-- A row of `rooms`. -/
structure RoomRow where
  id : String
  name : String
  creatorID : String
  creatorUsername : String
  isPublic : Bool
  createdAt : Nat
  lastActivityAt : Nat
  deriving DecidableEq, Repr

/-- A row of `room_messages`. -/
structure MsgRow where
  id : String
  roomID : String
  senderID : String
  senderUsername : String
  content : String
  createdAt : Nat
  deriving DecidableEq, Repr

/-- The `WHERE … created_at < $2` clause of `MessageStore.GetHistory`;
`before = none` models the zero `time.Time` (no clause). -/
def beforeMatch (before : Option Nat) (m : MsgRow) : Bool :=
  match before with
  | none => true
  | some b => m.createdAt < b

/-- Newest-first, `b.createdAt ≤ a.createdAt` for `a` before `b`. -/
def newestFirst (a b : MsgRow) : Prop := b.createdAt ≤ a.createdAt

instance : DecidableRel newestFirst := fun a b =>
  inferInstanceAs (Decidable (b.createdAt ≤ a.createdAt))

/-- `MessageStore.Save`: append a row with the server-assigned id and
timestamp. -/
def messagesSave (tbl : List MsgRow) (roomID senderID senderUsername
    content newID : String) (now : Nat) : List MsgRow :=
  tbl ++ [⟨newID, roomID, senderID, senderUsername, content, now⟩]

/-- `MessageStore.GetHistory`: rows of the room (filtered by `before` when
given) in `ORDER BY created_at DESC` with `LIMIT`. -/
def messagesGetHistory (tbl : List MsgRow) (roomID : String) (limit : Nat)
    (before : Option Nat) : List MsgRow :=
  (List.insertionSort newestFirst
      (tbl.filter fun m => m.roomID == roomID && beforeMatch before m)).take
    limit

/-! ## The hub (`internal/hub`, src/unnamed/part_001 second document)

The DB-backed hub with all four stores set (`SetStores` is called at
startup in `cmd/haven/main.go`); `HubState` packs the mutex-guarded
in-memory indices together with the store tables the locked sections
read and write. -/

structure HubState where
  clients : GoMap Client
  usernames : GoMap String
  userIDs : GoMap String
  rooms : GoMap Room
  users : List UserRow
  roomRows : List RoomRow
  memberRows : List MemberRow
  messageRows : List MsgRow
  deriving DecidableEq, Repr

/-- `broadcastLocked`: send to every registered client except
`excludeID` (called with the hub's mutex held). -/
def broadcastLocked (clients : GoMap Client) (excludeID : String) (m : Msg) :
    GoMap Client :=
  clients.map fun kv =>
    if kv.1 ≠ excludeID ∧ kv.2.username ≠ "" then (kv.1, kv.2.sendMessage m)
    else kv

/-- `hub.RegisterResult`. -/
structure RegisterResult where
  success : Bool := false
  recoveryCode : String := ""
  isNewUser : Bool := false
  error : Option ErrCode := none
  deriving DecidableEq, Repr

/-- The full outcome of a registration-path transition: the new hub state,
the caller's session object after its field writes, the final state of a
kicked imposter object (if one was evicted), and the result value. -/
structure RegOutcome where
  state : HubState
  self : Client
  evicted : Option Client
  result : RegisterResult
  deriving DecidableEq, Repr

/-- The imposter-eviction prelude of `loginExistingUserLocked` (lines
823–840 of the DB hub): if another connection holds `username`, send it a
`Kicked` envelope, drop it from `usernames` and `userIDs`, close it, and
drop it from `clients` — all in the same locked section.  Room membership
is left untouched.  `none` models the panic of closing a closed channel. -/
def kickImposterLocked (h : HubState) (cid username : String) :
    Option (HubState × Option Client) :=
  match GoMap.lookup username h.usernames with
  | none => some (h, none)
  | some existingClientID =>
    if existingClientID = cid then some (h, none)
    else
      match GoMap.lookup existingClientID h.clients with
      | none => some (h, none)
      | some imposter =>
        let imposter1 := imposter.sendMessage
          (.kicked "The account owner has logged in from another device")
        match imposter1.close with
        | none => none
        | some imposter2 =>
          some ({ h with
                  usernames := h.usernames.erase username,
                  userIDs := if imposter.userID = "" then h.userIDs
                             else h.userIDs.erase imposter.userID,
                  clients := h.clients.erase existingClientID },
                some imposter2)

/-- `Hub.loginExistingUserLocked` (DB hub, lines 822–860): kick any
imposter, then bind the calling session to the user's id and username in
both reverse indices and broadcast `user_joined` — one locked section.
(The asynchronous `UpdateLastSeen` touches only `last_seen_at`, a column
the model omits.) -/
def loginExistingUserLocked (h : HubState) (c : Client) (username : String)
    (userData : UserRow) : Option RegOutcome :=
  match kickImposterLocked h c.id username with
  | none => none
  | some (h1, evicted) =>
    let c1 := { c with userID := userData.id, username := username }
    let clients1 := (h1.clients.adjust c.id fun _ => c1)
    let clients2 := broadcastLocked clients1 c.id
      (.userJoined userData.id username)
    some { state :=
             { h1 with clients := clients2,
                       usernames := h1.usernames.insert username c.id,
                       userIDs := h1.userIDs.insert userData.id c.id },
           self := c1, evicted := evicted,
           result := { success := true, isNewUser := false } }

/-- `Hub.RegisterUser` (DB hub, lines 713–798) with the user store set.
`hash` abstracts `auth.HashValue`; `newUserID` and `newRecoveryCode` are
the server-generated id and recovery phrase consumed only on the new-user
branch.  (The store's I/O error returns and `GenerateRecoveryCode`
failure are environment faults outside the modelled data.) -/
def registerUser (hash : String → String) (h : HubState) (c : Client)
    (username fingerprint recoveryCode newUserID newRecoveryCode : String) :
    Option RegOutcome :=
  if usernameRegex username = false then
    some { state := h, self := c, evicted := none,
           result := { error := some .invalidUsername } }
  else
    let fingerprintHash := if fingerprint = "" then "" else hash fingerprint
    match usersGetByUsername h.users username with
    | some existingUser =>
      if fingerprint ≠ "" ∧ existingUser.fingerprintHash = fingerprintHash then
        loginExistingUserLocked h c username existingUser
      else if recoveryCode ≠ "" then
        if existingUser.recoveryCodeHash = hash recoveryCode then
          let h1 := if fingerprint = "" then h
            else { h with users := (usersUpdateFingerprint h.users
                     existingUser.id fingerprintHash) }
          loginExistingUserLocked h1 c username existingUser
        else
          some { state := h, self := c, evicted := none,
                 result := { error := some .invalidRecovery } }
      else if (GoMap.lookup username h.usernames).isSome then
        some { state := h, self := c, evicted := none,
               result := { error := some .recoveryRequired } }
      else
        some { state := h, self := c, evicted := none,
               result := { error := some .recoveryRequired } }
    | none =>
      let newUser : UserRow :=
        { id := newUserID, username := username,
          fingerprintHash := fingerprintHash,
          recoveryCodeHash := hash newRecoveryCode }
      let c1 := { c with userID := newUserID, username := username }
      let clients1 := h.clients.adjust c.id fun _ => c1
      let clients2 := broadcastLocked clients1 c.id
        (.userJoined newUserID username)
      some { state :=
               { h with users := h.users ++ [newUser],
                        clients := clients2,
                        usernames := h.usernames.insert username c.id,
                        userIDs := h.userIDs.insert newUserID c.id },
             self := c1, evicted := none,
             result := { success := true, recoveryCode := newRecoveryCode,
                         isNewUser := true } }

/-- `Hub.RemoveClient` (DB hub, lines 680–702): broadcast `user_left` if
the session was registered, drop it from all three indices, and close it.
Room membership — in `rooms` and in `room_members` — is deliberately NOT
touched.  `none` models the panic of `c.Close()` on an already-closed
session. -/
def removeClient (h : HubState) (c : Client) : Option (HubState × Client) :=
  let step :=
    if c.username = "" then (h.clients, h.usernames)
    else
      (broadcastLocked h.clients c.id
         (.userLeft (if c.userID = "" then c.id else c.userID) c.username),
       h.usernames.erase c.username)
  let userIDs1 := if c.userID = "" then h.userIDs else h.userIDs.erase c.userID
  match c.close with
  | none => none
  | some c1 =>
    some ({ h with clients := step.1.erase c.id,
                   usernames := step.2,
                   userIDs := userIDs1 }, c1)

/-- `Hub.SendDirectMessage` (DB hub, lines 901–932): registered-sender
check, target lookup by username, then one `IncomingDirectMessage` is
enqueued to the target's outbound queue.  `msgID`/`ts` are the generated
uuid and the server timestamp.  Nothing is persisted. -/
def sendDirectMessage (h : HubState) (c : Client)
    (toUsername content msgID : String) (ts : Nat) :
    Except ErrCode HubState :=
  if c.username = "" then .error .notRegistered
  else
    match GoMap.lookup toUsername h.usernames with
    | none => .error .userNotFound
    | some toClientID =>
      match GoMap.lookup toClientID h.clients with
      | none => .error .userNotFound
      | some _ =>
        let m := Msg.directMessage msgID c.username (effectiveID c) content ts
        .ok { h with clients := (h.clients.adjust toClientID
                fun cl => cl.sendMessage m) }

/-- `Hub.CreateRoom` (DB hub, lines 935–988): registered check, name
validation, persist the room row, upsert the creator into `room_members`,
build the in-memory room, index it, add it to the creator's room set, and
broadcast `room_created` when public.  `newRoomID`/`now` are the
store-assigned id and timestamps. -/
def createRoom (h : HubState) (c : Client) (name : String) (isPublic : Bool)
    (newRoomID : String) (now : Nat) : Except ErrCode (HubState × Room) :=
  if c.username = "" then .error .notRegistered
  else if roomNameRegex name = false then .error .invalidRoomName
  else
    let creatorID := effectiveID c
    let row : RoomRow :=
      ⟨newRoomID, name, creatorID, c.username, isPublic, now, now⟩
    let r := Room.new newRoomID name creatorID c.username isPublic now
    let c1 := { c with rooms := Client.joinRoomSet c.rooms newRoomID }
    let clients1 := h.clients.adjust c.id fun _ => c1
    let clients2 :=
      if isPublic then broadcastLocked clients1 c.id (.roomCreated r.info)
      else clients1
    .ok ({ h with roomRows := h.roomRows ++ [row],
                  memberRows := membersAdd h.memberRows newRoomID creatorID
                    c.username now,
                  rooms := h.rooms.insert newRoomID r,
                  clients := clients2 }, r)

/-- `protocol.IncomingRoomMessage` as built by `GetRoomHistory`. -/
structure ProtoRoomMessage where
  messageID : String
  roomID : String
  fromUsername : String
  fromID : String
  content : String
  timestamp : Nat
  deriving DecidableEq, Repr

/-- `protocol.RoomHistoryResponsePayload`. -/
structure RoomHistoryResponse where
  roomID : String
  messages : List ProtoRoomMessage
  hasMore : Bool
  deriving DecidableEq, Repr

/-- Conversion of a stored message row to the wire payload. -/
def msgToProto (m : MsgRow) : ProtoRoomMessage :=
  { messageID := m.id, roomID := m.roomID, fromUsername := m.senderUsername,
    fromID := m.senderID, content := m.content, timestamp := m.createdAt }

/-- The limit normalisation of `Hub.GetRoomHistory` (lines 1192–1195):
`if limit <= 0 || limit > 100 { limit = 50 }`. -/
def clampLimit (limit : Int) : Int :=
  if limit ≤ 0 ∨ 100 < limit then 50 else limit

/-- `Hub.GetRoomHistory` (DB hub, lines 1158–1228) with the message store
set: registered and membership checks, limit normalisation, fetch of
`limit+1` newest-first rows, `has_more` when the extra row is present,
truncation, and reversal to oldest-first. -/
def getRoomHistory (h : HubState) (c : Client) (roomID : String)
    (limit : Int) (before : Option Nat) :
    Except ErrCode RoomHistoryResponse :=
  if c.username = "" then .error .notRegistered
  else
    let memberID := effectiveID c
    match GoMap.lookup roomID h.rooms with
    | none => .error .roomNotFound
    | some r =>
      if r.hasMember memberID = false then .error .notInRoom
      else
        let lim := (clampLimit limit).toNat
        let fetched := messagesGetHistory h.messageRows roomID (lim + 1) before
        let hasMore := decide (lim < fetched.length)
        let kept := if hasMore then fetched.take lim else fetched
        .ok { roomID := roomID, messages := (kept.map msgToProto).reverse,
              hasMore := hasMore }

/-! ## Helper lemmas about the hub transitions -/

theorem broadcastLocked_lookup (clients : GoMap Client) (ex : String)
    (m : Msg) (k : String) :
    GoMap.lookup k (broadcastLocked clients ex m) =
      (GoMap.lookup k clients).map
        (fun cl => if k ≠ ex ∧ cl.username ≠ "" then cl.sendMessage m
                   else cl) := by
  induction clients with
  | nil => simp [broadcastLocked]
  | cons kv rest ih =>
    obtain ⟨a, b⟩ := kv
    have hstep : broadcastLocked ((a, b) :: rest) ex m
        = (if a ≠ ex ∧ b.username ≠ "" then (a, b.sendMessage m) else (a, b))
            :: broadcastLocked rest ex m := by
      simp [broadcastLocked]
    rw [hstep]
    by_cases hc : a ≠ ex ∧ b.username ≠ ""
    · rw [if_pos hc]
      by_cases hk : a = k
      · subst hk
        rw [GoMap.lookup_cons, if_pos rfl, GoMap.lookup_cons, if_pos rfl]
        simp [hc]
      · rw [GoMap.lookup_cons, if_neg hk, GoMap.lookup_cons, if_neg hk, ih]
    · rw [if_neg hc]
      by_cases hk : a = k
      · subst hk
        rw [GoMap.lookup_cons, if_pos rfl, GoMap.lookup_cons, if_pos rfl]
        simp [hc]
      · rw [GoMap.lookup_cons, if_neg hk, GoMap.lookup_cons, if_neg hk, ih]

theorem broadcastLocked_lookup_self (clients : GoMap Client) (ex : String)
    (m : Msg) :
    GoMap.lookup ex (broadcastLocked clients ex m) =
      GoMap.lookup ex clients := by
  rw [broadcastLocked_lookup]
  cases GoMap.lookup ex clients <;> simp

/-- A successful imposter kick, spelled out. -/
theorem kickImposterLocked_kick (h : HubState) (cid username : String)
    (otherId : String) (imposter : Client)
    (hheld : GoMap.lookup username h.usernames = some otherId)
    (hne : otherId ≠ cid)
    (himp : GoMap.lookup otherId h.clients = some imposter)
    (hopen : imposter.closed = false) :
    kickImposterLocked h cid username =
      some ({ h with
              usernames := h.usernames.erase username,
              userIDs := if imposter.userID = "" then h.userIDs
                         else h.userIDs.erase imposter.userID,
              clients := h.clients.erase otherId },
            some { imposter.sendMessage
                (.kicked "The account owner has logged in from another device")
                with closed := true }) := by
  unfold kickImposterLocked
  rw [hheld]
  simp only [if_neg hne, himp]
  have hcl : (imposter.sendMessage
      (.kicked "The account owner has logged in from another device")).close
      = some { imposter.sendMessage
          (.kicked "The account owner has logged in from another device")
          with closed := true } := by
    unfold Client.close
    rw [Client.sendMessage_closed, hopen]
    rfl
  rw [hcl]

/-- `kickImposterLocked` always succeeds when every session in the hub's
index is open, and it only touches the three session indices. -/
theorem kickImposterLocked_total (h : HubState) (cid username : String)
    (hopen : ∀ e ∈ h.clients, (e : String × Client).2.closed = false) :
    ∃ h1 ev, kickImposterLocked h cid username = some (h1, ev) ∧
      h1.users = h.users ∧ h1.rooms = h.rooms ∧
      h1.memberRows = h.memberRows ∧ h1.messageRows = h.messageRows ∧
      h1.roomRows = h.roomRows := by
  unfold kickImposterLocked
  cases hu : GoMap.lookup username h.usernames with
  | none => exact ⟨h, none, rfl, rfl, rfl, rfl, rfl, rfl⟩
  | some existingClientID =>
    dsimp only
    by_cases hne : existingClientID = cid
    · rw [if_pos hne]
      exact ⟨h, none, rfl, rfl, rfl, rfl, rfl, rfl⟩
    · rw [if_neg hne]
      cases hc : GoMap.lookup existingClientID h.clients with
      | none => exact ⟨h, none, rfl, rfl, rfl, rfl, rfl, rfl⟩
      | some imposter =>
        dsimp only
        have hio : imposter.closed = false :=
          hopen _ (GoMap.lookup_mem hc)
        have hcl : (imposter.sendMessage
            (.kicked "The account owner has logged in from another device")).close
            = some { imposter.sendMessage
                (.kicked "The account owner has logged in from another device")
                with closed := true } := by
          unfold Client.close
          rw [Client.sendMessage_closed, hio]
          rfl
        rw [hcl]
        exact ⟨_, _, rfl, rfl, rfl, rfl, rfl, rfl⟩

/-- `loginExistingUserLocked` succeeds for any hub whose indexed sessions
are all open; it binds the caller in both reverse indices, reports a
returning (not new) user, and leaves every store table and the room map
unchanged. -/
theorem loginExistingUserLocked_spec (h : HubState) (c : Client)
    (username : String) (userData : UserRow)
    (hopen : ∀ e ∈ h.clients, (e : String × Client).2.closed = false) :
    ∃ out, loginExistingUserLocked h c username userData = some out ∧
      out.result = { success := true, isNewUser := false } ∧
      out.self = { c with userID := userData.id, username := username } ∧
      GoMap.lookup username out.state.usernames = some c.id ∧
      GoMap.lookup userData.id out.state.userIDs = some c.id ∧
      out.state.users = h.users ∧ out.state.rooms = h.rooms ∧
      out.state.memberRows = h.memberRows ∧
      out.state.messageRows = h.messageRows ∧
      out.state.roomRows = h.roomRows := by
  obtain ⟨h1, ev, hk, hu, hr, hm, hmsg, hrr⟩ :=
    kickImposterLocked_total h c.id username hopen
  unfold loginExistingUserLocked
  rw [hk]
  exact ⟨_, rfl, rfl, rfl, by simp, by simp, hu, hr, hm, hmsg, hrr⟩

/-! ## The claims -/

/-- **C1.**  When a register request authenticates as the owner of a
username that another connection currently holds, `loginExistingUserLocked`
— one section under the hub's exclusive lock, so the eviction and the new
binding are atomic — sends that connection a `Kicked` envelope, removes it
from `usernames` (`by_username`), `userIDs` (`by_user_id`) and the
session map `clients`, and closes it, while binding the new session to
the user's id and username in both reverse indices; afterwards the
username resolves to the new connection only, and the evicted session's
room membership (in-memory room map and persistent `room_members`) is
unchanged. -/
theorem C1_login_existing_evicts_imposter_atomically
    (h : HubState) (c : Client) (username : String) (userData : UserRow)
    (otherId : String) (imposter : Client)
    (hheld : GoMap.lookup username h.usernames = some otherId)
    (hne : otherId ≠ c.id)
    (himp : GoMap.lookup otherId h.clients = some imposter)
    (hopen : imposter.closed = false)
    (hq : imposter.sendq.length < sendBufferSize)
    (huid : imposter.userID ≠ "") :
    ∃ out, loginExistingUserLocked h c username userData = some out ∧
      out.evicted = some { imposter with
        sendq := imposter.sendq ++
          [.kicked "The account owner has logged in from another device"],
        closed := true } ∧
      GoMap.lookup otherId out.state.clients = none ∧
      GoMap.lookup username out.state.usernames = some c.id ∧
      GoMap.lookup userData.id out.state.userIDs = some c.id ∧
      (imposter.userID ≠ userData.id →
        GoMap.lookup imposter.userID out.state.userIDs = none) ∧
      out.state.rooms = h.rooms ∧ out.state.memberRows = h.memberRows := by
  have hkick := kickImposterLocked_kick h c.id username otherId imposter
    hheld hne himp hopen
  unfold loginExistingUserLocked
  rw [hkick]
  dsimp only
  refine ⟨_, rfl, ?_, ?_, ?_, ?_, ?_, rfl, rfl⟩
  · rw [Client.sendMessage_enqueue imposter _ hopen hq]
  · rw [broadcastLocked_lookup,
      GoMap.lookup_adjust_ne _ c.id otherId _ (fun hh => hne hh.symm),
      GoMap.lookup_erase_self]
    rfl
  · rw [GoMap.lookup_insert_self]
  · rw [GoMap.lookup_insert_self]
  · intro hdne
    rw [GoMap.lookup_insert_ne _ userData.id imposter.userID _ hdne,
      if_neg huid, GoMap.lookup_erase_self]

/-- Sample data: the hub holds "alice" for connection `conn-old`
(`c1SampleImposter`); `conn-new` (`c1SampleNew`) authenticates as the
owner of the `u-1` user row. -/
def c1SampleImposter : Client :=
  { id := "conn-old", userID := "u-1", username := "alice" }

def c1SampleNew : Client := { id := "conn-new" }

def c1SampleUser : UserRow :=
  { id := "u-1", username := "alice", fingerprintHash := "H",
    recoveryCodeHash := "R" }

def c1SampleHub : HubState :=
  { clients := [("conn-old", c1SampleImposter), ("conn-new", c1SampleNew)],
    usernames := [("alice", "conn-old")],
    userIDs := [("u-1", "conn-old")],
    rooms := [], users := [c1SampleUser], roomRows := [], memberRows := [],
    messageRows := [] }

/-- Witness for C1 on the sample hub. -/
theorem C1_witness :
    GoMap.lookup "alice" c1SampleHub.usernames = some "conn-old" ∧
    "conn-old" ≠ c1SampleNew.id ∧
    GoMap.lookup "conn-old" c1SampleHub.clients = some c1SampleImposter ∧
    c1SampleImposter.closed = false ∧
    c1SampleImposter.sendq.length < sendBufferSize ∧
    c1SampleImposter.userID ≠ "" ∧
    (∃ out, loginExistingUserLocked c1SampleHub c1SampleNew "alice"
        c1SampleUser = some out ∧
      out.evicted = some { c1SampleImposter with
        sendq := c1SampleImposter.sendq ++
          [.kicked "The account owner has logged in from another device"],
        closed := true } ∧
      GoMap.lookup "conn-old" out.state.clients = none ∧
      GoMap.lookup "alice" out.state.usernames = some c1SampleNew.id ∧
      GoMap.lookup c1SampleUser.id out.state.userIDs = some c1SampleNew.id ∧
      (c1SampleImposter.userID ≠ c1SampleUser.id →
        GoMap.lookup c1SampleImposter.userID out.state.userIDs = none) ∧
      out.state.rooms = c1SampleHub.rooms ∧
      out.state.memberRows = c1SampleHub.memberRows) :=
  ⟨by decide, by decide, by decide, by decide, by decide, by decide,
    C1_login_existing_evicts_imposter_atomically c1SampleHub c1SampleNew
      "alice" c1SampleUser "conn-old" c1SampleImposter (by decide) (by decide)
      (by decide) (by decide) (by decide) (by decide)⟩

/-- **C2.**  Decision table of `RegisterUser` for a username whose user
row already exists: (1) a non-empty fingerprint hashing to the stored
`fingerprint_hash` logs in as the owner (and rotates nothing); (2)
otherwise a supplied recovery code hashing to the stored `recovery_hash`
logs in, rotating the stored `fingerprint_hash` to the hash of the
supplied fingerprint (when one is supplied); (3) otherwise a supplied
recovery code that does not match fails with `INVALID_RECOVERY`; (4)
otherwise the request fails with `RECOVERY_REQUIRED` — with no hypothesis
on whether the username is currently online.  The two failing branches
return the hub state and the session object exactly unchanged. -/
theorem C2_register_existing_user_decision_table
    (hash : String → String) (h : HubState) (c : Client)
    (username fingerprint recoveryCode newUserID newRecoveryCode : String)
    (u : UserRow)
    (hvalid : usernameRegex username = true)
    (hfound : usersGetByUsername h.users username = some u)
    (hopen : ∀ e ∈ h.clients, (e : String × Client).2.closed = false) :
    (fingerprint ≠ "" → u.fingerprintHash = hash fingerprint →
      ∃ out, registerUser hash h c username fingerprint recoveryCode
          newUserID newRecoveryCode = some out ∧
        out.result = { success := true, isNewUser := false } ∧
        GoMap.lookup username out.state.usernames = some c.id ∧
        out.state.users = h.users) ∧
    (¬(fingerprint ≠ "" ∧ u.fingerprintHash = hash fingerprint) →
      recoveryCode ≠ "" → u.recoveryCodeHash = hash recoveryCode →
      ∃ out, registerUser hash h c username fingerprint recoveryCode
          newUserID newRecoveryCode = some out ∧
        out.result = { success := true, isNewUser := false } ∧
        GoMap.lookup username out.state.usernames = some c.id ∧
        (fingerprint ≠ "" → out.state.users =
          usersUpdateFingerprint h.users u.id (hash fingerprint)) ∧
        (fingerprint = "" → out.state.users = h.users)) ∧
    (¬(fingerprint ≠ "" ∧ u.fingerprintHash = hash fingerprint) →
      recoveryCode ≠ "" → u.recoveryCodeHash ≠ hash recoveryCode →
      registerUser hash h c username fingerprint recoveryCode
          newUserID newRecoveryCode =
        some { state := h, self := c, evicted := none,
               result := { error := some .invalidRecovery } }) ∧
    (¬(fingerprint ≠ "" ∧ u.fingerprintHash = hash fingerprint) →
      recoveryCode = "" →
      registerUser hash h c username fingerprint recoveryCode
          newUserID newRecoveryCode =
        some { state := h, self := c, evicted := none,
               result := { error := some .recoveryRequired } }) := by
  have hcase1 : ∀ P : Prop, (fingerprint ≠ "" ∧ u.fingerprintHash =
      (if fingerprint = "" then "" else hash fingerprint) ↔
      fingerprint ≠ "" ∧ u.fingerprintHash = hash fingerprint) := by
    intro _
    constructor
    · rintro ⟨hfp, hm⟩
      rw [if_neg hfp] at hm
      exact ⟨hfp, hm⟩
    · rintro ⟨hfp, hm⟩
      rw [if_neg hfp]
      exact ⟨hfp, hm⟩
  unfold registerUser
  rw [hvalid]
  simp only [Bool.true_eq_false, if_false, hfound]
  refine ⟨?_, ?_, ?_, ?_⟩
  · intro hfp hmatch
    rw [if_pos ((hcase1 True).mpr ⟨hfp, hmatch⟩)]
    obtain ⟨out, hout, hres, hself, hun, _, husers, _⟩ :=
      loginExistingUserLocked_spec h c username u hopen
    exact ⟨out, hout, hres, hun, husers⟩
  · intro hnot hrc hrcmatch
    rw [if_neg (fun hh => hnot ((hcase1 True).mp hh)), if_pos hrc,
      if_pos hrcmatch]
    by_cases hfp : fingerprint = ""
    · rw [if_pos hfp]
      obtain ⟨out, hout, hres, hself, hun, _, husers, _⟩ :=
        loginExistingUserLocked_spec h c username u hopen
      exact ⟨out, hout, hres, hun, fun hh => absurd hfp hh,
        fun _ => husers⟩
    · rw [if_neg hfp]
      have hopen1 : ∀ e ∈ ({ h with users := (usersUpdateFingerprint h.users
          u.id (if fingerprint = "" then "" else hash fingerprint)) } :
          HubState).clients, (e : String × Client).2.closed = false := hopen
      obtain ⟨out, hout, hres, hself, hun, _, husers, _⟩ :=
        loginExistingUserLocked_spec _ c username u hopen1
      refine ⟨out, hout, hres, hun, fun _ => ?_, fun hh => absurd hh hfp⟩
      rw [husers]
      dsimp only
      rw [if_neg hfp]
  · intro hnot hrc hrcbad
    rw [if_neg (fun hh => hnot ((hcase1 True).mp hh)), if_pos hrc,
      if_neg hrcbad]
  · intro hnot hrc
    rw [if_neg (fun hh => hnot ((hcase1 True).mp hh)), if_neg (fun hh => hh hrc)]
    exact ite_self _

/-- Sample data for C2: one stored user "alice" with fingerprint hash
`#fpA` and recovery hash `#rcA` under the literal hash
`fun s => "#" ++ s`; "alice" is offline and `conn-new` is the only
session. -/
def c2SampleHub : HubState :=
  { clients := [("conn-new", c1SampleNew)],
    usernames := [], userIDs := [], rooms := [],
    users := [{ id := "u-1", username := "alice",
                fingerprintHash := "#fpA", recoveryCodeHash := "#rcA" }],
    roomRows := [], memberRows := [], messageRows := [] }

/-- Witness for C2 on the sample hub (fingerprint-match branch). -/
theorem C2_witness :
    usernameRegex "alice" = true ∧
    usersGetByUsername c2SampleHub.users "alice" =
      some { id := "u-1", username := "alice", fingerprintHash := "#fpA",
             recoveryCodeHash := "#rcA" } ∧
    (∀ e ∈ c2SampleHub.clients, (e : String × Client).2.closed = false) ∧
    (∃ out, registerUser (fun s => "#" ++ s) c2SampleHub c1SampleNew
        "alice" "fpA" "" "u-ignored" "rc-ignored" = some out ∧
      out.result = { success := true, isNewUser := false } ∧
      GoMap.lookup "alice" out.state.usernames = some c1SampleNew.id ∧
      out.state.users = c2SampleHub.users) :=
  ⟨by decide, by decide, by decide,
    (C2_register_existing_user_decision_table (fun s => "#" ++ s) c2SampleHub
      c1SampleNew "alice" "fpA" "" "u-ignored" "rc-ignored"
      { id := "u-1", username := "alice", fingerprintHash := "#fpA",
        recoveryCodeHash := "#rcA" }
      (by decide) (by decide) (by decide)).1 (by decide) (by decide)⟩

/-- **C3.**  Detaching a registered session (`RemoveClient`) removes it
from `clients`, `usernames` and `userIDs`, closes it, and appends exactly
one `UserLeft` envelope carrying its user id and username to the queue of
every other registered session (an unregistered session receives
nothing), while the room map and the persistent `room_members` table are
untouched. -/
theorem C3_remove_registered_client
    (h : HubState) (c : Client)
    (hreg : c.username ≠ "")
    (huid : c.userID ≠ "")
    (hopen : c.closed = false) :
    ∃ h' c', removeClient h c = some (h', c') ∧
      GoMap.lookup c.id h'.clients = none ∧
      GoMap.lookup c.username h'.usernames = none ∧
      GoMap.lookup c.userID h'.userIDs = none ∧
      c' = { c with closed := true } ∧
      (∀ id cl, id ≠ c.id → GoMap.lookup id h.clients = some cl →
        cl.username ≠ "" → cl.closed = false →
        cl.sendq.length < sendBufferSize →
        GoMap.lookup id h'.clients =
          some { cl with sendq := cl.sendq ++
            [.userLeft c.userID c.username] }) ∧
      (∀ id cl, id ≠ c.id → GoMap.lookup id h.clients = some cl →
        cl.username = "" → GoMap.lookup id h'.clients = some cl) ∧
      h'.rooms = h.rooms ∧ h'.memberRows = h.memberRows := by
  have hclose : c.close = some { c with closed := true } := by
    unfold Client.close
    rw [hopen]
    rfl
  unfold removeClient
  rw [if_neg hreg, if_neg huid, hclose]
  dsimp only
  rw [if_neg (fun hh : c.userID = "" => huid hh)]
  refine ⟨_, _, rfl, ?_, ?_, ?_, rfl, ?_, ?_, rfl, rfl⟩
  · exact GoMap.lookup_erase_self _ _
  · exact GoMap.lookup_erase_self _ _
  · exact GoMap.lookup_erase_self _ _
  · intro id cl hid hcl hclreg hclopen hclroom
    rw [GoMap.lookup_erase_ne _ _ _ hid, broadcastLocked_lookup, hcl]
    simp only [Option.map_some']
    rw [if_pos ⟨hid, hclreg⟩, Client.sendMessage_enqueue cl _ hclopen hclroom]
  · intro id cl hid hcl hclanon
    rw [GoMap.lookup_erase_ne _ _ _ hid, broadcastLocked_lookup, hcl]
    simp only [Option.map_some']
    rw [if_neg (fun hh => hh.2 hclanon)]

/-- Sample hub for the detach claims: registered sessions "alice" and
"bob", one unregistered session `conn-x`, one room with "alice" as
persisted member. -/
def c3Alice : Client := { id := "conn-a", userID := "u-a", username := "alice" }

def c3Bob : Client := { id := "conn-b", userID := "u-b", username := "bob" }

def c3Anon : Client := { id := "conn-x" }

def c3SampleHub : HubState :=
  { clients := [("conn-a", c3Alice), ("conn-b", c3Bob), ("conn-x", c3Anon)],
    usernames := [("alice", "conn-a"), ("bob", "conn-b")],
    userIDs := [("u-a", "conn-a"), ("u-b", "conn-b")],
    rooms := [("r1", Room.new "r1" "general" "u-a" "alice" true 5)],
    users := [], roomRows := [],
    memberRows := [⟨"r1", "u-a", "alice", 5⟩], messageRows := [] }

/-- Witness for C3: detaching "alice" from the sample hub. -/
theorem C3_witness :
    c3Alice.username ≠ "" ∧ c3Alice.userID ≠ "" ∧ c3Alice.closed = false ∧
    (∃ h' c', removeClient c3SampleHub c3Alice = some (h', c') ∧
      GoMap.lookup "conn-a" h'.clients = none ∧
      GoMap.lookup "alice" h'.usernames = none ∧
      GoMap.lookup "u-a" h'.userIDs = none ∧
      c' = { c3Alice with closed := true } ∧
      GoMap.lookup "conn-b" h'.clients =
        some { c3Bob with sendq := c3Bob.sendq ++
          [.userLeft "u-a" "alice"] } ∧
      GoMap.lookup "conn-x" h'.clients = some c3Anon ∧
      h'.rooms = c3SampleHub.rooms ∧
      h'.memberRows = c3SampleHub.memberRows) := by
  refine ⟨by decide, by decide, by decide, ?_⟩
  obtain ⟨h', c', heq, h1, h2, h3, h4, hrecip, hskip, h5, h6⟩ :=
    C3_remove_registered_client c3SampleHub c3Alice (by decide) (by decide)
      (by decide)
  exact ⟨h', c', heq, h1, h2, h3, h4,
    hrecip "conn-b" c3Bob (by decide) (by decide) (by decide) (by decide)
      (by decide),
    hskip "conn-x" c3Anon (by decide) (by decide) (by decide), h5, h6⟩

/-- **C10.**  Detaching a session that never completed registration
(empty username, hence empty user id) removes it from the session map and
closes it, but emits no `UserLeft`: every other session's entry — queue
included — is exactly unchanged, and so are both reverse indices. -/
theorem C10_remove_unregistered_client_silent
    (h : HubState) (c : Client)
    (hunreg : c.username = "") (huid : c.userID = "")
    (hopen : c.closed = false) :
    ∃ h' c', removeClient h c = some (h', c') ∧
      GoMap.lookup c.id h'.clients = none ∧
      (∀ id, id ≠ c.id →
        GoMap.lookup id h'.clients = GoMap.lookup id h.clients) ∧
      h'.usernames = h.usernames ∧
      h'.userIDs = h.userIDs ∧
      c' = { c with closed := true } ∧
      h'.rooms = h.rooms ∧ h'.memberRows = h.memberRows := by
  have hclose : c.close = some { c with closed := true } := by
    unfold Client.close
    rw [hopen]
    rfl
  unfold removeClient
  rw [if_pos hunreg, if_pos huid, hclose]
  dsimp only
  refine ⟨_, _, rfl, ?_, ?_, rfl, rfl, rfl, rfl, rfl⟩
  · exact GoMap.lookup_erase_self _ _
  · intro id hid
    exact GoMap.lookup_erase_ne _ _ _ hid

/-- Witness for C10: detaching the unregistered `conn-x` from the sample
hub. -/
theorem C10_witness :
    c3Anon.username = "" ∧ c3Anon.userID = "" ∧ c3Anon.closed = false ∧
    (∃ h' c', removeClient c3SampleHub c3Anon = some (h', c') ∧
      GoMap.lookup "conn-x" h'.clients = none ∧
      GoMap.lookup "conn-a" h'.clients = GoMap.lookup "conn-a"
        c3SampleHub.clients ∧
      GoMap.lookup "conn-b" h'.clients = GoMap.lookup "conn-b"
        c3SampleHub.clients ∧
      h'.usernames = c3SampleHub.usernames ∧
      h'.userIDs = c3SampleHub.userIDs ∧
      c' = { c3Anon with closed := true } ∧
      h'.rooms = c3SampleHub.rooms ∧
      h'.memberRows = c3SampleHub.memberRows) := by
  refine ⟨by decide, by decide, by decide, ?_⟩
  obtain ⟨h', c', heq, h1, hsame, h2, h3, h4, h5, h6⟩ :=
    C10_remove_unregistered_client_silent c3SampleHub c3Anon (by decide)
      (by decide) (by decide)
  exact ⟨h', c', heq, h1, hsame "conn-a" (by decide),
    hsame "conn-b" (by decide), h2, h3, h4, h5, h6⟩

/-- **C6.**  `SendDirectMessage`: an unregistered sender fails with
`NOT_REGISTERED`; a target username not bound to a live connection —
every offline user included — fails with `USER_NOT_FOUND`; otherwise
exactly one `IncomingDirectMessage` with the fresh message id, the
sender's username and (effective) user id, the content and the server
timestamp is appended to the target's outbound queue, and nothing else
changes: no other session's entry, no reverse index, no room, and no
store table (nothing is persisted).  The error cases return without
producing a state at all. -/
theorem C6_send_direct_message
    (h : HubState) (c : Client) (toUsername content msgID : String)
    (ts : Nat) :
    (c.username = "" →
      sendDirectMessage h c toUsername content msgID ts =
        .error .notRegistered) ∧
    (c.username ≠ "" → GoMap.lookup toUsername h.usernames = none →
      sendDirectMessage h c toUsername content msgID ts =
        .error .userNotFound) ∧
    (∀ toClientID, c.username ≠ "" →
      GoMap.lookup toUsername h.usernames = some toClientID →
      GoMap.lookup toClientID h.clients = none →
      sendDirectMessage h c toUsername content msgID ts =
        .error .userNotFound) ∧
    (∀ toClientID target, c.username ≠ "" →
      GoMap.lookup toUsername h.usernames = some toClientID →
      GoMap.lookup toClientID h.clients = some target →
      target.closed = false → target.sendq.length < sendBufferSize →
      ∃ h', sendDirectMessage h c toUsername content msgID ts = .ok h' ∧
        GoMap.lookup toClientID h'.clients =
          some { target with sendq := target.sendq ++
            [.directMessage msgID c.username (effectiveID c) content ts] } ∧
        (∀ id, id ≠ toClientID →
          GoMap.lookup id h'.clients = GoMap.lookup id h.clients) ∧
        h'.usernames = h.usernames ∧ h'.userIDs = h.userIDs ∧
        h'.rooms = h.rooms ∧ h'.users = h.users ∧
        h'.roomRows = h.roomRows ∧ h'.memberRows = h.memberRows ∧
        h'.messageRows = h.messageRows) := by
  refine ⟨?_, ?_, ?_, ?_⟩
  · intro hanon
    unfold sendDirectMessage
    rw [if_pos hanon]
  · intro hreg hnone
    unfold sendDirectMessage
    rw [if_neg hreg, hnone]
  · intro toClientID hreg hsome hgone
    unfold sendDirectMessage
    rw [if_neg hreg, hsome]
    dsimp only
    rw [hgone]
  · intro toClientID target hreg hsome htarget hopen hroom
    unfold sendDirectMessage
    rw [if_neg hreg, hsome]
    dsimp only
    rw [htarget]
    refine ⟨_, rfl, ?_, ?_, rfl, rfl, rfl, rfl, rfl, rfl, rfl⟩
    · rw [GoMap.lookup_adjust_self, htarget, Option.map_some',
        Client.sendMessage_enqueue target _ hopen hroom]
    · intro id hid
      dsimp only
      exact GoMap.lookup_adjust_ne h.clients toClientID id _
        (fun hh => hid hh.symm)

/-- Witness for C6: "alice" sends a direct message to "bob" in the
sample hub; the offline "carol" yields `USER_NOT_FOUND`. -/
theorem C6_witness :
    (c3Alice.username ≠ "" ∧
     GoMap.lookup "carol" c3SampleHub.usernames = none ∧
     sendDirectMessage c3SampleHub c3Alice "carol" "hi" "m1" 77 =
       .error .userNotFound) ∧
    (c3Alice.username ≠ "" ∧
     GoMap.lookup "bob" c3SampleHub.usernames = some "conn-b" ∧
     GoMap.lookup "conn-b" c3SampleHub.clients = some c3Bob ∧
     c3Bob.closed = false ∧ c3Bob.sendq.length < sendBufferSize ∧
     (∃ h', sendDirectMessage c3SampleHub c3Alice "bob" "hi" "m1" 77 =
        .ok h' ∧
       GoMap.lookup "conn-b" h'.clients =
         some { c3Bob with sendq := c3Bob.sendq ++
           [.directMessage "m1" "alice" "u-a" "hi" 77] } ∧
       GoMap.lookup "conn-a" h'.clients = GoMap.lookup "conn-a"
         c3SampleHub.clients ∧
       h'.usernames = c3SampleHub.usernames ∧
       h'.userIDs = c3SampleHub.userIDs ∧
       h'.rooms = c3SampleHub.rooms ∧
       h'.messageRows = c3SampleHub.messageRows)) := by
  constructor
  · exact ⟨by decide, by decide,
      (C6_send_direct_message c3SampleHub c3Alice "carol" "hi" "m1" 77).2.1
        (by decide) (by decide)⟩
  · refine ⟨by decide, by decide, by decide, by decide, by decide, ?_⟩
    obtain ⟨h', heq, htgt, hsame, h1, h2, h3, h4, h5, h6, h7⟩ :=
      (C6_send_direct_message c3SampleHub c3Alice "bob" "hi" "m1"
        77).2.2.2 "conn-b" c3Bob (by decide) (by decide) (by decide)
        (by decide) (by decide)
    exact ⟨h', heq, htgt, hsame "conn-a" (by decide), h1, h2, h3, h7⟩

/-- **C7.**  `MemberStore.Add` is an upsert keyed by `(room_id, user_id)`:
adding the same pair twice to a table that did not yet contain it leaves
exactly one row for the pair, with the username of the second add and the
`joined_at` of the first. -/
theorem C7_member_add_upsert
    (tbl : List MemberRow) (roomID userID u1 u2 : String) (t1 t2 : Nat)
    (hfresh : ∀ r ∈ tbl, ¬(r.roomID = roomID ∧ r.userID = userID)) :
    (membersAdd (membersAdd tbl roomID userID u1 t1) roomID userID u2
        t2).filter (fun r => r.roomID == roomID && r.userID == userID) =
      [⟨roomID, userID, u2, t1⟩] := by
  have hp : ∀ r : MemberRow,
      (r.roomID == roomID && r.userID == userID) = true ↔
        (r.roomID = roomID ∧ r.userID = userID) := by
    intro r
    simp
  have hanyA : tbl.any (fun r => r.roomID == roomID && r.userID == userID)
      = false := by
    rw [List.any_eq_false]
    intro r hr
    rw [hp r]
    exact hfresh r hr
  have hstep1 : membersAdd tbl roomID userID u1 t1
      = tbl ++ [⟨roomID, userID, u1, t1⟩] := by
    unfold membersAdd
    rw [hanyA]
    rfl
  rw [hstep1]
  have hanyB : (tbl ++ [(⟨roomID, userID, u1, t1⟩ : MemberRow)]).any
      (fun r => r.roomID == roomID && r.userID == userID) = true := by
    simp
  have hstep2 : membersAdd (tbl ++ [⟨roomID, userID, u1, t1⟩]) roomID userID
      u2 t2
      = (tbl ++ [(⟨roomID, userID, u1, t1⟩ : MemberRow)]).map
          (fun (r : MemberRow) =>
            if r.roomID == roomID && r.userID == userID then
              { r with username := u2 } else r) := by
    unfold membersAdd
    rw [hanyB]
    rfl
  rw [hstep2, List.map_append]
  have hmap : tbl.map (fun (r : MemberRow) =>
      if r.roomID == roomID && r.userID == userID
      then { r with username := u2 } else r) = tbl := by
    conv_rhs => rw [← List.map_id tbl]
    apply List.map_congr_left
    intro r hr
    have hb : (r.roomID == roomID && r.userID == userID) = false := by
      cases h' : (r.roomID == roomID && r.userID == userID) with
      | false => rfl
      | true => exact absurd ((hp r).mp h') (hfresh r hr)
    rw [hb]
    rfl
  rw [hmap]
  have hone : ([(⟨roomID, userID, u1, t1⟩ : MemberRow)]).map
      (fun (r : MemberRow) =>
        if r.roomID == roomID && r.userID == userID then
          { r with username := u2 } else r) = [⟨roomID, userID, u2, t1⟩] := by
    simp
  rw [hone, List.filter_append]
  have hnil : tbl.filter (fun r => r.roomID == roomID && r.userID == userID)
      = [] := by
    rw [List.filter_eq_nil_iff]
    intro r hr
    rw [hp r]
    exact hfresh r hr
  rw [hnil]
  simp

/-- Witness for C7: two adds of `("r1", "u-a")` to the empty table, the
second with a changed username. -/
theorem C7_witness :
    (∀ r ∈ ([] : List MemberRow), ¬(r.roomID = "r1" ∧ r.userID = "u-a")) ∧
    (membersAdd (membersAdd [] "r1" "u-a" "alice" 5) "r1" "u-a" "alicia"
        9).filter (fun r => r.roomID == "r1" && r.userID == "u-a") =
      [⟨"r1", "u-a", "alicia", 5⟩] :=
  ⟨by decide,
    C7_member_add_upsert [] "r1" "u-a" "alice" "alicia" 5 9 (by decide)⟩

/-- **C4 (counterexample).**  The claim says a `room_history` limit of
1000 (any value above 100) is clamped to 100, but `GetRoomHistory`
normalises every out-of-range value — `limit > 100` included — to 50:
`if limit <= 0 || limit > 100 { limit = 50 }`. -/
theorem C4_counterexample :
    clampLimit 1000 = 50 ∧ clampLimit 1000 ≠ 100 := by decide

/-- **C4 (amended).**  `room_history` normalises its limit before
fetching: any non-positive limit and any limit above 100 becomes 50 (the
default), a limit already in `[1, 100]` is kept, and fetching with the
raw limit equals fetching with the normalised one. -/
theorem C4_amended_limit_normalisation (limit : Int) :
    (limit ≤ 0 ∨ 100 < limit → clampLimit limit = 50) ∧
    (1 ≤ limit → limit ≤ 100 → clampLimit limit = limit) ∧
    (∀ h c roomID before, getRoomHistory h c roomID limit before =
      getRoomHistory h c roomID (clampLimit limit) before) := by
  have hidem : clampLimit (clampLimit limit) = clampLimit limit := by
    unfold clampLimit
    split_ifs <;> omega
  refine ⟨?_, ?_, ?_⟩
  · intro hout
    unfold clampLimit
    rw [if_pos hout]
  · intro h1 h2
    unfold clampLimit
    rw [if_neg (by omega : ¬(limit ≤ 0 ∨ 100 < limit))]
  · intro h c roomID before
    unfold getRoomHistory
    rw [hidem]

/-- Witness for the amended C4: 1000 and 0 normalise to 50, 7 is kept. -/
theorem C4_witness :
    clampLimit 1000 = 50 ∧ clampLimit 0 = 50 ∧ clampLimit 7 = 7 :=
  ⟨(C4_amended_limit_normalisation 1000).1 (Or.inr (by decide)),
   (C4_amended_limit_normalisation 0).1 (Or.inl (by decide)),
   (C4_amended_limit_normalisation 7).2.1 (by decide) (by decide)⟩

instance {ε α : Type} [DecidableEq ε] [DecidableEq α] :
    DecidableEq (Except ε α) := fun x y =>
  match x, y with
  | .error a, .error b => decidable_of_iff (a = b) (by simp)
  | .ok a, .ok b => decidable_of_iff (a = b) (by simp)
  | .error _, .ok _ => .isFalse (by simp)
  | .ok _, .error _ => .isFalse (by simp)

/-- **C8 (counterexample).**  The claim says `room_create` accepts any
1–50-character name, but `roomNameRegex` is `^.{1,50}$` and Go's `.`
does not match a newline: the 3-character name `"a\nb"` is rejected with
`INVALID_ROOM_NAME` by a registered session. -/
theorem C8_counterexample :
    "a\nb".length = 3 ∧
    createRoom c3SampleHub c3Alice "a\nb" true "r-new" 9 =
      .error .invalidRoomName ∧
    ErrCode.code .invalidRoomName = "INVALID_ROOM_NAME" := by decide

/-- **C8 (amended).**  For a registered session, `room_create` accepts
exactly the names of 1–50 characters that contain no newline, and rejects
every other name — the empty name, names longer than 50 characters, and
names containing a newline — with `INVALID_ROOM_NAME`. -/
theorem C8_amended_room_name_validation
    (h : HubState) (c : Client) (name : String) (isPublic : Bool)
    (newRoomID : String) (now : Nat)
    (hreg : c.username ≠ "") :
    (roomNameRegex name = true ↔
      1 ≤ name.length ∧ name.length ≤ 50 ∧ ∀ ch ∈ name.data, ch ≠ '\n') ∧
    (roomNameRegex name = true →
      ∃ h' r, createRoom h c name isPublic newRoomID now = .ok (h', r)) ∧
    (roomNameRegex name = false →
      createRoom h c name isPublic newRoomID now =
        .error .invalidRoomName) := by
  refine ⟨?_, ?_, ?_⟩
  · unfold roomNameRegex
    simp [List.all_eq_true, and_assoc]
  · intro hv
    unfold createRoom
    rw [if_neg hreg, hv]
    simp only [Bool.true_eq_false, if_false]
    exact ⟨_, _, rfl⟩
  · intro hv
    unfold createRoom
    rw [if_neg hreg, hv]
    rfl

/-- Witness for the amended C8: a 50-character name is accepted, a
51-character name is rejected. -/
theorem C8_witness :
    c3Alice.username ≠ "" ∧
    roomNameRegex (String.mk (List.replicate 50 'a')) = true ∧
    roomNameRegex (String.mk (List.replicate 51 'a')) = false ∧
    (∃ h' r, createRoom c3SampleHub c3Alice
        (String.mk (List.replicate 50 'a')) true "r-new" 9 = .ok (h', r)) ∧
    createRoom c3SampleHub c3Alice (String.mk (List.replicate 51 'a')) true
      "r-new" 9 = .error .invalidRoomName := by
  refine ⟨by decide, by decide, by decide, ?_, ?_⟩
  · exact (C8_amended_room_name_validation c3SampleHub c3Alice
      (String.mk (List.replicate 50 'a')) true "r-new" 9 (by decide)).2.1
      (by decide)
  · exact (C8_amended_room_name_validation c3SampleHub c3Alice
      (String.mk (List.replicate 51 'a')) true "r-new" 9 (by decide)).2.2
      (by decide)

/-- **C9 (code bug).**  The spec requires `close()` to be idempotent, but
`Client.Close` is the bare statement `close(c.Send)`, and closing an
already-closed Go channel panics: the first close succeeds, a second
close of the same session panics (`none`), and the hub's own
disconnect path — `RemoveClient`, which the listener installs as the
session's on-close handler — panics when handed a session that was
already closed by imposter eviction. -/
theorem C9_close_not_idempotent :
    Client.close { id := "conn-1" } =
      some { id := "conn-1", closed := true } ∧
    (Client.close { id := "conn-1" }).bind Client.close = none ∧
    removeClient c3SampleHub { c3Anon with closed := true } = none := by
  decide

/-! ### History fetch lemmas (for C5) -/

instance : IsTotal MsgRow newestFirst :=
  ⟨fun a b => le_total b.createdAt a.createdAt⟩

instance : IsTrans MsgRow newestFirst :=
  ⟨fun _ _ _ hab hbc => le_trans hbc hab⟩

theorem messagesGetHistory_length_le (tbl : List MsgRow) (roomID : String)
    (limit : Nat) (before : Option Nat) :
    (messagesGetHistory tbl roomID limit before).length ≤ limit := by
  unfold messagesGetHistory
  simp [List.length_take]

theorem messagesGetHistory_mem (tbl : List MsgRow) (roomID : String)
    (limit : Nat) (before : Option Nat) {m : MsgRow}
    (hm : m ∈ messagesGetHistory tbl roomID limit before) :
    m ∈ tbl ∧ m.roomID = roomID ∧ beforeMatch before m = true := by
  unfold messagesGetHistory at hm
  have h1 := List.take_subset _ _ hm
  have h2 := (List.perm_insertionSort newestFirst _).subset h1
  rcases List.mem_filter.mp h2 with ⟨hmem, hcond⟩
  rw [Bool.and_eq_true] at hcond
  exact ⟨hmem, by simpa using hcond.1, hcond.2⟩

theorem messagesGetHistory_sorted (tbl : List MsgRow) (roomID : String)
    (limit : Nat) (before : Option Nat) :
    List.Sorted newestFirst (messagesGetHistory tbl roomID limit before) := by
  unfold messagesGetHistory
  exact List.Pairwise.sublist (List.take_sublist _ _)
    (List.sorted_insertionSort newestFirst _)

/-- **C5.**  For a registered member of an existing room and an in-range
limit, `GetRoomHistory` fetches `limit+1` messages of the room from the
store in newest-first order (restricted to `created_at` strictly below
`before` when provided), sets `has_more` exactly when the extra
`(limit+1)`-th message came back, discards that extra message, and
returns at most `limit` messages reversed to oldest-first order. -/
theorem C5_room_history_pagination
    (h : HubState) (c : Client) (roomID : String) (limit : Int)
    (before : Option Nat) (r : Room)
    (hreg : c.username ≠ "")
    (hroom : GoMap.lookup roomID h.rooms = some r)
    (hmem : r.hasMember (effectiveID c) = true)
    (hlo : 1 ≤ limit) (hhi : limit ≤ 100) :
    ∃ resp, getRoomHistory h c roomID limit before = .ok resp ∧
      resp.roomID = roomID ∧
      (messagesGetHistory h.messageRows roomID (limit.toNat + 1)
          before).length ≤ limit.toNat + 1 ∧
      (∀ m ∈ messagesGetHistory h.messageRows roomID (limit.toNat + 1)
          before, m.roomID = roomID) ∧
      (∀ m ∈ messagesGetHistory h.messageRows roomID (limit.toNat + 1)
          before, ∀ b, before = some b → m.createdAt < b) ∧
      List.Sorted newestFirst (messagesGetHistory h.messageRows roomID
        (limit.toNat + 1) before) ∧
      resp.hasMore = decide (limit.toNat <
        (messagesGetHistory h.messageRows roomID (limit.toNat + 1)
          before).length) ∧
      resp.messages = (((messagesGetHistory h.messageRows roomID
        (limit.toNat + 1) before).take limit.toNat).map msgToProto).reverse ∧
      resp.messages.length ≤ limit.toNat := by
  have hcl : clampLimit limit = limit := by
    unfold clampLimit
    rw [if_neg (by omega : ¬(limit ≤ 0 ∨ 100 < limit))]
  unfold getRoomHistory
  rw [if_neg hreg, hroom]
  dsimp only
  rw [hmem]
  simp only [Bool.true_eq_false, if_false, hcl]
  refine ⟨_, rfl, rfl,
    messagesGetHistory_length_le _ _ _ _,
    fun m hm => (messagesGetHistory_mem _ _ _ _ hm).2.1,
    fun m hm b hb => ?_,
    messagesGetHistory_sorted _ _ _ _, rfl, ?_, ?_⟩
  · have := (messagesGetHistory_mem _ _ _ _ hm).2.2
    rw [hb] at this
    simpa [beforeMatch] using this
  · dsimp only
    by_cases hmore : limit.toNat <
        (messagesGetHistory h.messageRows roomID (limit.toNat + 1)
          before).length
    · rw [if_pos (by simpa using hmore)]
    · rw [if_neg (by simpa using hmore)]
      rw [List.take_of_length_le (by omega)]
  · dsimp only
    by_cases hmore : limit.toNat <
        (messagesGetHistory h.messageRows roomID (limit.toNat + 1)
          before).length
    · rw [if_pos (by simpa using hmore)]
      simp [List.length_take]
    · rw [if_neg (by simpa using hmore)]
      simp only [List.length_reverse, List.length_map]
      omega

/-- Sample hub for C5: the room `r1` of the detach sample with three
persisted messages at timestamps 1, 2, 3. -/
def c5SampleHub : HubState :=
  { c3SampleHub with messageRows :=
      [⟨"m1", "r1", "u-a", "alice", "one", 1⟩,
       ⟨"m2", "r1", "u-b", "bob", "two", 2⟩,
       ⟨"m3", "r1", "u-a", "alice", "three", 3⟩] }

/-- Witness for C5: "alice" fetches `r1` history with limit 2; three
messages qualify, so `has_more` is set and the two newest come back
oldest-first. -/
theorem C5_witness :
    c3Alice.username ≠ "" ∧
    GoMap.lookup "r1" c5SampleHub.rooms =
      some (Room.new "r1" "general" "u-a" "alice" true 5) ∧
    (Room.new "r1" "general" "u-a" "alice" true 5).hasMember
      (effectiveID c3Alice) = true ∧
    (1 : Int) ≤ 2 ∧ (2 : Int) ≤ 100 ∧
    (∃ resp, getRoomHistory c5SampleHub c3Alice "r1" 2 none = .ok resp ∧
      resp.roomID = "r1" ∧
      (messagesGetHistory c5SampleHub.messageRows "r1" ((2 : Int).toNat + 1)
          none).length ≤ (2 : Int).toNat + 1 ∧
      (∀ m ∈ messagesGetHistory c5SampleHub.messageRows "r1"
          ((2 : Int).toNat + 1) none, m.roomID = "r1") ∧
      (∀ m ∈ messagesGetHistory c5SampleHub.messageRows "r1"
          ((2 : Int).toNat + 1) none, ∀ b, none = some b →
            m.createdAt < b) ∧
      List.Sorted newestFirst (messagesGetHistory c5SampleHub.messageRows
        "r1" ((2 : Int).toNat + 1) none) ∧
      resp.hasMore = decide ((2 : Int).toNat <
        (messagesGetHistory c5SampleHub.messageRows "r1"
          ((2 : Int).toNat + 1) none).length) ∧
      resp.messages = (((messagesGetHistory c5SampleHub.messageRows "r1"
        ((2 : Int).toNat + 1) none).take (2 : Int).toNat).map
          msgToProto).reverse ∧
      resp.messages.length ≤ (2 : Int).toNat) :=
  ⟨by decide, by decide, by decide, by decide, by decide,
    C5_room_history_pagination c5SampleHub c3Alice "r1" 2 none
      (Room.new "r1" "general" "u-a" "alice" true 5) (by decide) (by decide)
      (by decide) (by decide) (by decide)⟩

end Haven
